import Mathlib

/-!
# ArgosOS — verification of the ingestion / retrieval / answer pipelines

Shallow embedding of the ArgosOS document-management backend
(`app/agents/ingest_agent.py`, `app/agents/retrieval_agent.py`,
`app/agents/postprocessor_agent.py`, `app/db/crud.py`,
`app/llm/openai_provider.py`, `app/files/text_extractor.py`,
`app/constants.py`, `app/utils/hash.py`).

Modelling conventions:
* Raw file bytes are `List Nat`.
* External capabilities (SHA-256 hashing, the OpenAI chat/vision calls, the
  JSON library parser, text-encoding decoders, PyMuPDF/pdfminer/pytesseract,
  python-docx, uuid generation, the clock) are oracles collected in `Env`.
  A chat-call oracle returning `none` models the underlying call raising an
  exception; `some r` models it returning response text `r`.
* SQLAlchemy rows are records; a table is the list of its rows in insertion
  order, and `.first()` is first-match lookup on that list.
* The JSON-encoded columns `documents.tags` and `tags.document_ids` are
  represented by their decoded lists; the code always writes them with
  `json.dumps` of a Python list of strings and reads them back with
  `json.loads`, which round-trips.  The retrieval agent's substring filter on
  the raw JSON text of `documents.tags` is modelled by re-serialising the
  list with `jsonDumpsList` (the `json.dumps` output format) and doing the
  substring test on that text, exactly as the SQL `LIKE` filter does.
* Python's in-place mutation of a freshly inserted ORM row (setting
  `document.tags` after `DocumentCRUD.create`) is modelled by inserting the
  finally-updated row: the mutation targets that one object, and the net
  state after `ingest_file` is identical.
-/

/-! ## Python string helpers -/

/-- Python `str.strip()`: drop whitespace from both ends. -/
def pyStrip (s : String) : String :=
  ⟨(s.data.dropWhile Char.isWhitespace).reverse.dropWhile Char.isWhitespace |>.reverse⟩

/-- Python `str.strip(chars)`: drop any of the given characters from both ends. -/
def pyStripChars (cs : List Char) (s : String) : String :=
  ⟨(s.data.dropWhile (· ∈ cs)).reverse.dropWhile (· ∈ cs) |>.reverse⟩

/-- Python `str.lower()` (ASCII case folding, as `Char.toLower`). -/
def pyLower (s : String) : String :=
  ⟨s.data.map Char.toLower⟩

/-- Python `sub in s` for strings: substring containment. -/
def strContainsSub (hay pat : String) : Bool :=
  hay.data.tails.any (fun t => pat.data.isPrefixOf t)

/-- Python `s.startswith(p)`. -/
def pyStartsWith (s p : String) : Bool :=
  p.data.isPrefixOf s.data

/-- SQL `LIKE` matching: `%` matches any sequence, `_` any one character. -/
def likeMatch : List Char → List Char → Bool
  | [], s => s.isEmpty
  | p :: ps, s =>
    if p = '%' then s.tails.any (fun t => likeMatch ps t)
    else match s with
      | [] => false
      | c :: s' => (p = '_' || p = c) && likeMatch ps s'

/-- Python `str.split()` (no argument): split on whitespace runs, no empties. -/
def pySplitWs (s : String) : List String :=
  (s.split Char.isWhitespace).filter (· ≠ "")

/-- First-occurrence deduplication, preserving order. -/
def dedupFirst [DecidableEq α] (l : List α) : List α :=
  (l.foldl (fun acc x => if x ∈ acc then acc else acc ++ [x]) [])

/-- Remove the first element satisfying `p` (SQLAlchemy `db.delete` of the row
found by a `.first()` query). -/
def eraseFirstP (p : α → Bool) : List α → List α
  | [] => []
  | x :: xs => if p x then xs else x :: eraseFirstP p xs

/-- Update the first element satisfying `p` (in-place mutation of the row
found by a `.first()` query). -/
def updateFirstP (p : α → Bool) (f : α → α) : List α → List α
  | [] => []
  | x :: xs => if p x then f x :: xs else x :: updateFirstP p f xs

/-- `Path(filename).suffix`: the final `.ext` (empty if no dot past index 0). -/
def pySuffix (filename : String) : String :=
  let rev := filename.data.reverse
  let pre := rev.takeWhile (· ≠ '.')
  -- pathlib: the suffix exists iff the last dot sits strictly between the
  -- first and last character of the name.
  if 0 < pre.length ∧ pre.length + 1 < filename.data.length then
    ⟨('.' :: pre.reverse)⟩
  else ""

/-- `Path(filename).stem`: the filename with its final suffix removed. -/
def pyStem (filename : String) : String :=
  let suf := pySuffix filename
  ⟨filename.data.take (filename.data.length - suf.data.length)⟩

/-- JSON string escaping as done by `json.dumps` (quote and backslash). -/
def jsonEscape (s : String) : String :=
  ⟨s.data.foldr (fun c acc =>
    if c = '"' ∨ c = '\\' then '\\' :: c :: acc else c :: acc) []⟩

/-- `json.dumps` of a Python list of strings, e.g. `["a", "b"]`. -/
def jsonDumpsList (xs : List String) : String :=
  "[" ++ String.intercalate ", " (xs.map (fun s => "\"" ++ jsonEscape s ++ "\"")) ++ "]"

/-! ## JSON values (results of the external `json.loads`) -/

/-- A parsed JSON value, as produced by Python's `json.loads`. -/
inductive JVal where
  | null
  | bool (b : Bool)
  | num (n : Int)
  | str (s : String)
  | arr (xs : List JVal)
  | obj (fields : List (String × JVal))

/-- Python truthiness of a decoded JSON value. -/
def pyBool : JVal → Bool
  | .null => false
  | .bool b => b
  | .num n => n ≠ 0
  | .str s => s ≠ ""
  | .arr xs => ¬ xs.isEmpty
  | .obj fs => ¬ fs.isEmpty

mutual

/-- Python `repr` of a decoded JSON value (only used inside `pyStr`). -/
def pyRepr : JVal → String
  | .null => "None"
  | .bool true => "True"
  | .bool false => "False"
  | .num n => toString n
  | .str s => "'" ++ s ++ "'"
  | .arr xs => "[" ++ String.intercalate ", " (pyReprList xs) ++ "]"
  | .obj fs => "\x7b" ++ String.intercalate ", " (pyReprObj fs) ++ "\x7d"

/-- `repr` of each element of a JSON array. -/
def pyReprList : List JVal → List String
  | [] => []
  | x :: xs => pyRepr x :: pyReprList xs

/-- `repr` of each field of a JSON object. -/
def pyReprObj : List (String × JVal) → List String
  | [] => []
  | (k, v) :: fs => ("'" ++ k ++ "': " ++ pyRepr v) :: pyReprObj fs

end

/-- Python `str()` of a decoded JSON value. -/
def pyStr : JVal → String
  | .str s => s
  | v => pyRepr v

/-- Dictionary lookup `d[k]` / `k in d` on a decoded JSON object. -/
def jObjFind (fields : List (String × JVal)) (k : String) : Option JVal :=
  (fields.find? (fun f => f.1 = k)).map (·.2)

/-! ## Constants (`app/constants.py`) -/

/-- `MAX_FILE_SIZE = 100 * 1024 * 1024` (100 MB). -/
def MAX_FILE_SIZE : Nat := 100 * 1024 * 1024

/-- `TEXT_ENCODINGS = ['utf-8', 'utf-16', 'latin-1', 'cp1252']`. -/
def TEXT_ENCODINGS : List String := ["utf-8", "utf-16", "latin-1", "cp1252"]

/-! ## Data model (`app/db/models.py` / `app/db/crud.py`) -/

/-- A row of the `documents` table.  `tags` is the JSON-encoded list stored in
the `tags` column, represented decoded (see the header comment). -/
structure Doc where
  id : String
  content_hash : String
  title : String
  mime_type : String
  size_bytes : Nat
  storage_path : String
  summary : Option String
  tags : List String
  created_at : Nat
  imported_at : Nat
  deriving DecidableEq, Repr

/-- A row of the `tags` table: the tag's name plus its JSON-encoded
`document_ids` list (represented decoded).  `crud.py` calls the name column
`tag`, `models.py` and the retrieval agent call it `name`. -/
structure TagRec where
  name : String
  document_ids : List String
  deriving DecidableEq, Repr

/-- Whole persistent state: the two catalog tables plus the blob store
(`./data/blobs`, a map from path to raw bytes). -/
structure St where
  docs : List Doc
  tags : List TagRec
  blobs : List (String × List Nat)
  deriving DecidableEq, Repr

/-- Write bytes at a path in the blob store (`blob_path.write_bytes`),
overwriting any previous content. -/
def blobPut (blobs : List (String × List Nat)) (path : String) (data : List Nat) :
    List (String × List Nat) :=
  if blobs.any (fun b => b.1 = path) then
    updateFirstP (fun b => b.1 = path) (fun b => (b.1, data)) blobs
  else blobs ++ [(path, data)]

/-- Read bytes at a path (`open(path, 'rb').read()`); `none` = file absent. -/
def blobGet (blobs : List (String × List Nat)) (path : String) : Option (List Nat) :=
  (blobs.find? (fun b => b.1 = path)).map (·.2)

/-! ## External capabilities -/

/-- The external capabilities consumed by the pipelines, as oracles.
For chat-style calls, `none` models the call raising an exception. -/
structure Env where
  /-- `hashlib.sha256(data).hexdigest()` (`app/utils/hash.py`). -/
  hash : List Nat → String
  /-- `uuid.uuid4()` used as the fresh document id default. -/
  freshId : String
  /-- `int(time.time() * 1000)`. -/
  now : Nat
  /-- `LLMProvider.is_available()` (API key configured and client built). -/
  llmAvailable : Bool
  /-- Chat response for `OpenAIProvider.summarize`. -/
  chatSummarize : String → Option String
  /-- Chat response for `OpenAIProvider.generate_tags`. -/
  chatTags : String → Option String
  /-- Chat response for `OpenAIProvider.extract_text_from_image` (gpt-4o vision). -/
  visionChat : List Nat → String → Option String
  /-- Chat response for `RetrievalAgent._generate_relevant_tags`
  (query, available tags). -/
  chatSelectTags : String → List String → Option String
  /-- Chat response for `PostProcessorAgent._generate_direct_answer`
  (query, gathered per-document contents). -/
  chatAnswer : String → List (String × String) → Option String
  /-- Chat response for `PostProcessorAgent._find_relevant_content`. -/
  chatRelevant : String → List (String × String) → Option String
  /-- Chat response for `PostProcessorAgent._decide_additional_processing`
  (query, relevant content). -/
  chatDecide : String → String → Option String
  /-- Chat response for `PostProcessorAgent._perform_additional_processing`
  (query, relevant content, instructions). -/
  chatProcess : String → String → String → Option String
  /-- The external `json.loads`; `none` = `json.JSONDecodeError`. -/
  jloads : String → Option JVal
  /-- `bytes.decode(encoding)`; `none` = `UnicodeDecodeError`. -/
  decodeBytes : String → List Nat → Option String
  /-- `bytes.decode('utf-8', errors='ignore')`: never fails. -/
  decodeLossy : List Nat → String
  /-- `TESSERACT_AVAILABLE`. -/
  tesseractAvailable : Bool
  /-- `PYMUPDF_AVAILABLE`. -/
  pymupdfAvailable : Bool
  /-- `PDFMINER_AVAILABLE`. -/
  pdfminerAvailable : Bool
  /-- `DOCX_AVAILABLE`. -/
  docxAvailable : Bool
  /-- `fitz.open(stream=b).pages[i].get_text()` for all pages;
  `none` = `fitz.open` raising. -/
  pdfPages : List Nat → Option (List String)
  /-- `pdfminer.high_level.extract_text`; `none` = raising. -/
  pdfminerText : List Nat → Option String
  /-- `page.get_pixmap(matrix=fitz.Matrix(2, 2)).tobytes("png")` for page `i`. -/
  renderPage : List Nat → Nat → List Nat
  /-- `TextExtractor`-style OCR of one image: PIL open + grayscale + contrast
  enhancement + the multi-PSM `pytesseract` loop keeping the longest text
  (black-box OCR capability per the spec); `""` = nothing recognised. -/
  ocrImage : List Nat → String
  /-- `IngestAgent._extract_with_ocr`'s internal pipeline (PIL open, MPO/RGB
  conversion, preprocessing, multi-config `pytesseract` loop); the raw final
  `text` before the trailing strip, `none` = `Image.open` raising. -/
  ocrIngest : List Nat → Option String
  /-- Bare `pytesseract.image_to_string` on raw bytes
  (`PostProcessorAgent._extract_text_from_file`); `none` = raising. -/
  ocrRaw : List Nat → Option String
  /-- `docx.Document(BytesIO(b))`: paragraph texts and table cell texts
  (rows of cells per table); `none` = raising. -/
  docxParse : List Nat → Option (List String × List (List (List String)))

/-! ## CRUD layer (`app/db/crud.py`) -/

/-- `DocumentCRUD.get_by_id`. -/
def get_by_id (st : St) (document_id : String) : Option Doc :=
  st.docs.find? (fun d => d.id = document_id)

/-- `DocumentCRUD.get_by_hash`. -/
def get_by_hash (st : St) (content_hash : String) : Option Doc :=
  st.docs.find? (fun d => d.content_hash = content_hash)

/-- The filter of `DocumentCRUD.search`: case-insensitive `LIKE`-containment
of the query in title, summary or the JSON text of the tags column.
The bound value is `f"%{query.lower()}%"` and `.contains` wraps it in a
further pair of `%` wildcards. -/
def searchMatches (query : String) (d : Doc) : Bool :=
  let pat := ("%" ++ ("%" ++ pyLower query ++ "%") ++ "%").data
  likeMatch pat (pyLower d.title).data ||
    (match d.summary with
     | some s => likeMatch pat (pyLower s).data
     | none => false) ||
    likeMatch pat (pyLower (jsonDumpsList d.tags)).data

/-- `DocumentCRUD.search`: filter then python slice `results[skip:skip+limit]`. -/
def document_search (st : St) (query : String) (skip limit : Nat) : List Doc :=
  ((st.docs.filter (searchMatches query)).drop skip).take limit

/-- `TagCRUD.get_by_tag` (first row whose name matches). -/
def tag_get_by_name (st : St) (tag : String) : Option TagRec :=
  st.tags.find? (fun t => t.name = tag)

/-- `TagCRUD.get_or_create`: create the tag with an empty `document_ids`
list when absent. -/
def tag_get_or_create (st : St) (tag : String) : St :=
  match tag_get_by_name st tag with
  | some _ => st
  | none => { st with tags := st.tags ++ [{ name := tag, document_ids := [] }] }

/-- `TagCRUD.remove_document_from_tag`: drop the id from the tag's list; if
the list becomes empty, delete the tag row entirely. -/
def remove_document_from_tag (st : St) (tag document_id : String) : St :=
  match tag_get_by_name st tag with
  | none => st
  | some t =>
    if document_id ∈ t.document_ids then
      let ids' := t.document_ids.erase document_id
      if ids' ≠ [] then
        let tags' := updateFirstP (fun r => r.name = tag)
          (fun r => { r with document_ids := ids' }) st.tags
        { st with tags := tags' }
      else
        { st with tags := eraseFirstP (fun r => r.name = tag) st.tags }
    else st

/-- `DocumentCRUD.delete`: retract the id from every tag carried by the
document, remove the blob, delete the row. -/
def document_delete (st : St) (document_id : String) : Bool × St :=
  match get_by_id st document_id with
  | none => (false, st)
  | some document =>
    let st1 := document.tags.foldl
      (fun s tag_name => remove_document_from_tag s tag_name document_id) st
    let st2 :=
      if document.storage_path ≠ "" ∧ ¬ pyStartsWith document.storage_path "memory://" then
        { st1 with blobs := st1.blobs.filter (fun b => b.1 ≠ document.storage_path) }
      else st1
    (true, { st2 with docs := eraseFirstP (fun d => d.id = document_id) st2.docs })

/-! ## LLM provider (`app/llm/openai_provider.py`) -/

/-- `OpenAIProvider.summarize`: the model's stripped response; on call
failure, truncation to the first 50 words; `""` when unavailable. -/
def llm_summarize (env : Env) (text : String) : String :=
  if ¬ env.llmAvailable then ""
  else
    match env.chatSummarize text with
    | some r => pyStrip r
    | none =>
      let words := pySplitWs text
      if words.length ≤ 50 then text
      else String.intercalate " " (words.take 50) ++ "..."

/-- `OpenAIProvider.extract_text_from_image`: stripped vision response;
`""` when unavailable or the call raises. -/
def llm_extract_text_from_image (env : Env) (image_data : List Nat) (filename : String) : String :=
  if ¬ env.llmAvailable then ""
  else
    match env.visionChat image_data filename with
    | some r => pyStrip r
    | none => ""

/-- The regex extraction `re.search(r'\[.*?\]', content, re.DOTALL)`:
leftmost `[`, then the shortest stretch up to the next `]`. -/
def bracketExtract (s : String) : Option String :=
  let rec go : List Char → Option (List Char)
    | [] => none
    | c :: rest =>
      if c = '[' then
        let inner := rest.takeWhile (· ≠ ']')
        if inner.length < rest.length then some ('[' :: inner ++ [']']) else none
      else go rest
  (go s.data).map (fun l => ⟨l⟩)

/-- Cleaning applied to each decoded JSON tag:
`str(tag).lower().strip()`. -/
def cleanJsonTag (j : JVal) : String :=
  pyStrip (pyLower (pyStr j))

/-- The delimiter-split fallback of `generate_tags`:
`re.split(r'[,;\n]', content)`, strip/lower/strip-quotes-brackets, drop empties,
cap at 7. -/
def delimiterFallbackTags (content : String) : List String :=
  let pieces := content.data.splitOnP (fun c => c = ',' ∨ c = ';' ∨ c = '\n')
  let pieces := (pieces.map (fun l => (⟨l⟩ : String))).filter (fun t => pyStrip t ≠ "")
  let tags := pieces.map (fun t => pyStripChars ['"', '\'', '[', ']'] (pyLower (pyStrip t)))
  (tags.filter (fun t => t ≠ "")).take 7

/-- The keyword-table fallback of `generate_tags`, used when the chat call
raises: fixed keyword → tag lookup over the lowercased text, cap 5. -/
def keywordFallbackTags (text : String) : List String :=
  let text_lower := pyLower text
  let tags :=
    (if strContainsSub text_lower "pdf" ∨ strContainsSub text_lower "document"
     then ["document"] else []) ++
    (if strContainsSub text_lower "report" then ["report"] else []) ++
    (if strContainsSub text_lower "contract" ∨ strContainsSub text_lower "agreement"
     then ["legal"] else []) ++
    (if strContainsSub text_lower "invoice" ∨ strContainsSub text_lower "bill"
     then ["financial"] else []) ++
    (if strContainsSub text_lower "manual" ∨ strContainsSub text_lower "guide"
     then ["manual"] else [])
  tags.take 5

/-- `OpenAIProvider.generate_tags`: strict JSON array → bracket-extracted
JSON array → delimiter split → keyword fallback on call failure; every
successful path is capped at 7 tags. -/
def generate_tags (env : Env) (text : String) : List String :=
  if ¬ env.llmAvailable then []
  else
    match env.chatTags text with
    | none => keywordFallbackTags text
    | some raw =>
      let content := pyStrip raw
      match env.jloads content with
      | some (JVal.arr tags) =>
        ((tags.filter pyBool).map cleanJsonTag).take 7
      | _ =>
        match bracketExtract content with
        | some sub =>
          match env.jloads sub with
          | some (JVal.arr tags) =>
            ((tags.filter pyBool).map cleanJsonTag).take 7
          | _ => delimiterFallbackTags content
        | none => delimiterFallbackTags content

/-! ## Text extraction (`IngestAgent`, `app/agents/ingest_agent.py`) -/

/-- `IngestAgent.SUPPORTED_TYPES` (identical in `TextExtractor`). -/
def SUPPORTED_TYPES : List (String × String) :=
  [("image/jpeg", "ocr"), ("image/jpg", "ocr"), ("image/png", "ocr"),
   ("image/gif", "ocr"), ("image/bmp", "ocr"), ("image/tiff", "ocr"),
   ("image/webp", "ocr"),
   ("application/pdf", "pdf"),
   ("application/vnd.openxmlformats-officedocument.wordprocessingml.document", "docx"),
   ("text/plain", "text"), ("text/markdown", "text"), ("text/csv", "text")]

/-- `IngestAgent.is_supported`. -/
def is_supported (mime_type : String) : Bool :=
  SUPPORTED_TYPES.any (fun p => p.1 = mime_type)

/-- `IngestAgent._extract_with_vision_api`: `None` when the provider is
unavailable or returns empty. -/
def ingest_extract_with_vision_api (env : Env) (file_data : List Nat) (filename : String) :
    Option String :=
  if ¬ env.llmAvailable then none
  else
    let extracted_text := llm_extract_text_from_image env file_data filename
    if extracted_text = "" then none else some extracted_text

/-- `IngestAgent._extract_with_ocr`: the OCR pipeline's final text, stripped;
`None` when tesseract is missing, the image fails to open, or no text found. -/
def ingest_extract_with_ocr (env : Env) (file_data : List Nat) : Option String :=
  if ¬ env.tesseractAvailable then none
  else
    match env.ocrIngest file_data with
    | none => none
    | some raw =>
      let text := pyStrip raw
      if text = "" then none else some text

/-- `IngestAgent._extract_from_pdf`: PyMuPDF text layer, then pdfminer;
no OCR pass of any kind. -/
def ingest_extract_from_pdf (env : Env) (file_data : List Nat) : Option String :=
  let viaPymupdf : Option String :=
    if env.pymupdfAvailable then
      match env.pdfPages file_data with
      | some pages =>
        let text := pages.foldl (fun acc p => acc ++ p) ""
        if pyStrip text ≠ "" then some (pyStrip text) else none
      | none => none
    else none
  match viaPymupdf with
  | some t => some t
  | none =>
    if env.pdfminerAvailable then
      match env.pdfminerText file_data with
      | some text => if pyStrip text ≠ "" then some (pyStrip text) else none
      | none => none
    else none

/-- `IngestAgent._extract_from_docx`: paragraph texts each followed by a
newline, then table cells space-separated with a newline per row. -/
def ingest_extract_from_docx (env : Env) (file_data : List Nat) : Option String :=
  if ¬ env.docxAvailable then none
  else
    match env.docxParse file_data with
    | none => none
    | some (paras, tables) =>
      let text := paras.foldl (fun acc p => acc ++ p ++ "\n") ""
      let text := tables.foldl (fun acc rows =>
        rows.foldl (fun acc row =>
          (row.foldl (fun acc cell => acc ++ cell ++ " ") acc) ++ "\n") acc) text
      let text := pyStrip text
      if text ≠ "" then some text else none

/-- `IngestAgent._extract_from_text`: first encoding in `TEXT_ENCODINGS`
whose decode succeeds with non-whitespace content. -/
def ingest_extract_from_text (env : Env) (file_data : List Nat) : Option String :=
  let rec go : List String → Option String
    | [] => none
    | enc :: rest =>
      match env.decodeBytes enc file_data with
      | some text => if pyStrip text ≠ "" then some (pyStrip text) else go rest
      | none => go rest
  go TEXT_ENCODINGS

/-- `IngestAgent._extract_text`: dispatch on the MIME type's extraction
method; unknown types yield `None`. -/
def ingest_extract_text (env : Env) (file_data : List Nat) (mime_type filename : String) :
    Option String :=
  match SUPPORTED_TYPES.find? (fun p => p.1 = mime_type) with
  | none => none
  | some (_, method) =>
    if method = "ocr" then
      if pyStartsWith mime_type "image/" then
        match ingest_extract_with_vision_api env file_data filename with
        | some t => some t
        | none => ingest_extract_with_ocr env file_data
      else ingest_extract_with_ocr env file_data
    else if method = "pdf" then ingest_extract_from_pdf env file_data
    else if method = "docx" then ingest_extract_from_docx env file_data
    else if method = "text" then ingest_extract_from_text env file_data
    else none

/-! ## Ingestion pipeline (`IngestAgent.ingest_file`) -/

/-- The dedup warning appended when an identical-content document exists. -/
def dedupWarning (title : String) : String :=
  "Document with this content already exists: " ++ title

/-- The synthetic summarizer input substituted for images with no extracted
text (summary variant). -/
def imageSummaryContext (filename mime_type : String) (size : Nat) : String :=
  "Image file: " ++ filename ++ ", MIME type: " ++ mime_type ++ ", Size: " ++
  toString size ++ " bytes. This appears to be an image document that may contain text, documents, or other visual information. Please analyze the image content and provide a summary based on what you can determine from the filename and context."

/-- The synthetic tagger input substituted for images with no extracted
text (tags variant). -/
def imageTagContext (filename mime_type : String) (size : Nat) : String :=
  "Image file: " ++ filename ++ ", MIME type: " ++ mime_type ++ ", Size: " ++
  toString size ++ " bytes. This appears to be an image document that may contain text, documents, or other visual information. Please analyze the image content and generate relevant tags based on what you can determine from the filename and context."

/-- The non-dedup tail of `ingest_file` (after validation and the hash
check): extraction, summary, blob write, document row, tag generation and
tag-table update.  The in-place `document.tags` update after
`DocumentCRUD.create` is modelled by inserting the final row (see header). -/
def ingest_create (env : Env) (file_data : List Nat) (filename mime_type : String)
    (title : Option String) (st : St) (content_hash : String) :
    Option Doc × List String × St :=
  let extracted := (ingest_extract_text env file_data mime_type filename).getD ""
  let errs1 :=
    if extracted = "" then
      ["Could not extract text from " ++ filename ++ " - document created without content"]
    else []
  let title' :=
    match title with
    | some t => if t = "" then pyStem filename else t
    | none => pyStem filename
  let isBlankImage := extracted = "" ∧ pyStartsWith mime_type "image/"
  let summary :=
    if env.llmAvailable then
      llm_summarize env
        (if isBlankImage then imageSummaryContext filename mime_type file_data.length
         else extracted)
    else ""
  let errs2 :=
    if env.llmAvailable then []
    else ["OpenAI API key not configured - summary generation skipped"]
  let file_extension := if pySuffix filename ≠ "" then pySuffix filename else ".bin"
  let blob_path := "data/blobs/" ++ content_hash ++ file_extension
  let st1 := { st with blobs := blobPut st.blobs blob_path file_data }
  let tag_names :=
    if env.llmAvailable then
      generate_tags env
        (if isBlankImage then imageTagContext filename mime_type file_data.length
         else extracted)
    else []
  let errs3 :=
    if env.llmAvailable then []
    else ["OpenAI API key not configured - tag generation skipped"]
  let document : Doc :=
    { id := env.freshId, content_hash := content_hash, title := title',
      mime_type := mime_type, size_bytes := file_data.length,
      storage_path := blob_path,
      summary := if summary = "" then none else some summary,
      tags := tag_names, created_at := env.now, imported_at := env.now }
  let st2 := { st1 with docs := st1.docs ++ [document] }
  let st3 := tag_names.foldl tag_get_or_create st2
  (some document, errs1 ++ errs2 ++ errs3, st3)

/-- `IngestAgent.ingest_file`: validation, hash, dedup, then creation. -/
def ingest_file (env : Env) (file_data : List Nat) (filename mime_type : String)
    (st : St) (title : Option String) : Option Doc × List String × St :=
  if file_data.isEmpty then (none, ["File data cannot be empty"], st)
  else if filename = "" then (none, ["Filename cannot be empty"], st)
  else if mime_type = "" then (none, ["MIME type cannot be empty"], st)
  else
    let file_size := file_data.length
    if MAX_FILE_SIZE < file_size then
      (none, ["File too large: " ++ toString file_size ++ " bytes (max: " ++
              toString MAX_FILE_SIZE ++ " bytes)"], st)
    else
      let content_hash := env.hash file_data
      match get_by_hash st content_hash with
      | some existing_doc => (some existing_doc, [dedupWarning existing_doc.title], st)
      | none => ingest_create env file_data filename mime_type title st content_hash

/-! ## TextExtractor PDF path (`app/files/text_extractor.py`) -/

/-- `TextExtractor._extract_from_pdf_ocr_fallback`: render each page at 2x
zoom, OCR it, keep per-page text with `Page n:` markers, join with blank
lines; `None` if no page yields text. -/
def tx_extract_from_pdf_ocr_fallback (env : Env) (file_data : List Nat) : Option String :=
  if ¬ (env.tesseractAvailable ∧ env.pymupdfAvailable) then none
  else
    match env.pdfPages file_data with
    | none => none
    | some pages =>
      if pages.length = 0 then none
      else
        let all_text := (List.range pages.length).foldl (fun acc i =>
          let img := env.renderPage file_data i
          let best_text := env.ocrImage img
          if pyStrip best_text ≠ "" then
            acc ++ ["Page " ++ toString (i + 1) ++ ":\n" ++ pyStrip best_text]
          else acc) []
        if all_text ≠ [] then some (String.intercalate "\n\n" all_text) else none

/-- The page loop of `TextExtractor._extract_from_pdf`: accumulate
`Page n:`-marked stripped page texts, skipping blank pages. -/
def txPageText : Nat → List String → String → String
  | _, [], acc => acc
  | i, p :: ps, acc =>
    if pyStrip p ≠ "" then
      txPageText (i + 1) ps (acc ++ "Page " ++ toString (i + 1) ++ ":\n" ++ pyStrip p ++ "\n\n")
    else txPageText (i + 1) ps acc

/-- `TextExtractor._extract_from_pdf`: PyMuPDF text layer with `Page n:`
markers, then pdfminer, then the per-page OCR fallback. -/
def tx_extract_from_pdf (env : Env) (file_data : List Nat) : Option String :=
  let viaPymupdf : Option String :=
    if env.pymupdfAvailable then
      match env.pdfPages file_data with
      | some pages =>
        let text := txPageText 0 pages ""
        if pyStrip text ≠ "" then some (pyStrip text) else none
      | none => none
    else none
  match viaPymupdf with
  | some t => some t
  | none =>
    let viaPdfminer : Option String :=
      if env.pdfminerAvailable then
        match env.pdfminerText file_data with
        | some text => if pyStrip text ≠ "" then some (pyStrip text) else none
        | none => none
      else none
    match viaPdfminer with
    | some t => some t
    | none => tx_extract_from_pdf_ocr_fallback env file_data

/-! ## Retrieval pipeline (`app/agents/retrieval_agent.py`) -/

/-- `RetrievalAgent._get_available_tags`: every tag name in the tags table. -/
def get_available_tags (st : St) : List String :=
  st.tags.map (·.name)

/-- `RetrievalAgent._generate_relevant_tags`: LLM tag selection constrained
to the vocabulary, with substring fallbacks. -/
def generate_relevant_tags (env : Env) (query : String) (available_tags : List String)
    (st : St) (limit : Nat) : List String :=
  if ¬ env.llmAvailable then
    let documents := document_search st query 0 limit
    let relevant_tags := dedupFirst (documents.foldl (fun acc d => acc ++ d.tags) [])
    if relevant_tags ≠ [] then relevant_tags
    else
      available_tags.filter (fun tag =>
        strContainsSub (pyLower tag) (pyLower query) ||
          strContainsSub (pyLower query) (pyLower tag))
  else
    match env.chatSelectTags query available_tags with
    | none =>
      -- the chat call raised: simple substring fallback over the vocabulary
      available_tags.filter (fun tag => strContainsSub (pyLower query) (pyLower tag))
    | some resp =>
      let relevant_tags_text := pyStrip resp
      if relevant_tags_text = "" then []
      else
        match env.jloads relevant_tags_text with
        | some (JVal.arr tags) =>
          -- keep only returned values equal to a vocabulary tag
          tags.filterMap (fun j =>
            match j with
            | JVal.str s => if s ∈ available_tags then some s else none
            | _ => none)
        | _ =>
          (((relevant_tags_text.data.splitOnP (· = ',')).map
            (fun piece => pyStripChars ['"', '\''] (pyStrip ⟨piece⟩))).filter
            (fun t => t ∈ available_tags))

/-- The per-tag document filter of
`RetrievalAgent._search_documents_with_generated_tags`:
`Document.tags.contains(f'"{tag}"')`, an SQL `LIKE` containment test on the
JSON text of the tags column. -/
def docTagsContains (d : Doc) (tag : String) : Bool :=
  likeMatch ("%\"" ++ tag ++ "\"%").data (jsonDumpsList d.tags).data

/-- Order-preserving dedup of documents by id. -/
def dedupDocsById (docs : List Doc) : List Doc :=
  (docs.foldl (fun acc d => if acc.2.contains d.id then acc else (acc.1 ++ [d], acc.2 ++ [d.id]))
    (([] : List Doc), ([] : List String))).1

/-- `RetrievalAgent._search_documents_with_generated_tags`: union of the
per-tag containment lookups, deduplicated by id, truncated to the limit. -/
def search_documents_with_generated_tags (st : St) (relevant_tags : List String)
    (limit : Nat) : List Doc :=
  if relevant_tags = [] then []
  else
    let documents := relevant_tags.foldl (fun acc tag =>
      acc ++ (st.docs.filter (fun d => docTagsContains d tag)).take limit) []
    (dedupDocsById documents).take limit

/-- A formatted document as produced by `RetrievalAgent._format_documents`. -/
structure FormattedDoc where
  id : String
  title : String
  summary : Option String
  tags : List String
  mime_type : String
  size_bytes : Nat
  created_at : Nat
  imported_at : Nat
  deriving DecidableEq, Repr

/-- `RetrievalAgent._format_documents`. -/
def format_documents (docs : List Doc) : List FormattedDoc :=
  docs.map (fun d =>
    { id := d.id, title := d.title, summary := d.summary, tags := d.tags,
      mime_type := d.mime_type, size_bytes := d.size_bytes,
      created_at := d.created_at, imported_at := d.imported_at })

/-- The result dictionary of `RetrievalAgent.search_documents`.  The
`file_paths` and `document_ids` fields are `Option`s because each key is
present in only one of the two dict shapes the code builds. -/
structure SearchResult where
  query : String
  documents : List FormattedDoc
  file_paths : Option (List String)
  document_ids : Option (List String)
  total_found : Nat
  errors : List String
  deriving DecidableEq, Repr

/-- The limit normalization of `RetrievalAgent.search_documents`: an
out-of-range limit is replaced by the default 10 (not clamped). -/
def normalize_limit (limit : Int) : Int :=
  if limit ≤ 0 ∨ 1000 < limit then 10 else limit

/-- `RetrievalAgent.search_documents`. -/
def search_documents (env : Env) (query : String) (st : St) (limit : Int) : SearchResult :=
  if pyStrip query = "" then
    { query := query, documents := [], file_paths := some [], document_ids := none,
      total_found := 0, errors := ["Query cannot be empty"] }
  else
    let limit := normalize_limit limit
    let limitN := limit.toNat
    let available_tags := get_available_tags st
    let relevant_tags := generate_relevant_tags env query available_tags st limitN
    let documents := search_documents_with_generated_tags st relevant_tags limitN
    let documents := if documents = [] then document_search st query 0 limitN else documents
    let document_ids := documents.map (·.id)
    let formatted_docs := format_documents documents
    { query := pyStrip query, documents := formatted_docs, file_paths := none,
      document_ids := some document_ids, total_found := formatted_docs.length,
      errors := [] }

/-! ## Answer pipeline (`app/agents/postprocessor_agent.py`) -/

/-- `PostProcessorAgent._extract_text_from_file`. -/
def pp_extract_text_from_file (env : Env) (file_data : List Nat) (mime_type : String) : String :=
  if pyStartsWith mime_type "text/" then env.decodeLossy file_data
  else if mime_type = "application/pdf" then
    match env.pdfPages file_data with
    | some pages => pages.foldl (fun acc p => acc ++ p) ""
    | none => ""
  else if mime_type = "image/jpeg" ∨ mime_type = "image/png" ∨ mime_type = "image/tiff" then
    (env.ocrRaw file_data).getD ""
  else ""

/-- Python truthiness of the optional summary column. -/
def summaryTruthy (s : Option String) : Option String :=
  match s with
  | some t => if t = "" then none else some t
  | none => none

/-- `PostProcessorAgent._extract_document_contents`: per-document gathered
content keyed by id (dict in insertion order). -/
def extract_document_contents (env : Env) (st : St) (documents : List Doc) :
    List (String × String) :=
  documents.map (fun doc =>
    if doc.mime_type ≠ "" ∧ pyStartsWith doc.mime_type "image/" then
      match summaryTruthy doc.summary with
      | some s => (doc.id, s)
      | none => (doc.id, "Image: " ++ doc.title ++ " (no summary available)")
    else
      if doc.storage_path ≠ "" then
        match blobGet st.blobs doc.storage_path with
        | some file_data => (doc.id, pp_extract_text_from_file env file_data doc.mime_type)
        | none =>
          match summaryTruthy doc.summary with
          | some s => (doc.id, s)
          | none => (doc.id, "Document: " ++ doc.title ++ " (no content available)")
      else
        match summaryTruthy doc.summary with
        | some s => (doc.id, s)
        | none => (doc.id, "Document: " ++ doc.title ++ " (no content available)"))

/-- `PostProcessorAgent._generate_direct_answer`. -/
def generate_direct_answer (env : Env) (query : String)
    (extracted_contents : List (String × String)) : String :=
  if ¬ env.llmAvailable then "LLM not available for generating direct answer"
  else
    match env.chatAnswer query extracted_contents with
    | some r => pyStrip r
    | none => "Error generating answer"

/-- `PostProcessorAgent._find_relevant_content`. -/
def find_relevant_content (env : Env) (query : String)
    (extracted_contents : List (String × String)) : String :=
  if ¬ env.llmAvailable then
    let relevant_parts :=
      (extracted_contents.filter (fun c => strContainsSub (pyLower c.2) (pyLower query))).map
        (fun c => "Document " ++ c.1 ++ ": " ++ (⟨c.2.data.take 500⟩ : String) ++ "...")
    String.intercalate "\n\n" relevant_parts
  else
    match env.chatRelevant query extracted_contents with
    | some r => pyStrip r
    | none => "Error processing content with LLM"

/-- The decision dictionary of
`PostProcessorAgent._decide_additional_processing`.  The safe default has
`needs_processing := false` and null `instructions`. -/
structure Decision where
  needs_processing : Bool
  instructions : JVal

/-- `JVal.null` test (used to state properties of `Decision.instructions`). -/
def JVal.isNull : JVal → Bool
  | .null => true
  | _ => false

/-- `PostProcessorAgent._decide_additional_processing`: strict JSON object
parse with required fields, defaulting to no further processing. -/
def decide_additional_processing (env : Env) (query relevant_content : String) : Decision :=
  if ¬ env.llmAvailable then { needs_processing := false, instructions := JVal.null }
  else
    match env.chatDecide query relevant_content with
    | none => { needs_processing := false, instructions := JVal.null }
    | some raw =>
      let content := pyStrip raw
      match env.jloads content with
      | some (JVal.obj fields) =>
        match jObjFind fields "needs_processing", jObjFind fields "instructions" with
        | some np, some instr => { needs_processing := pyBool np, instructions := instr }
        | _, _ => { needs_processing := false, instructions := JVal.null }
      | _ => { needs_processing := false, instructions := JVal.null }

/-- `PostProcessorAgent._perform_additional_processing`. -/
def perform_additional_processing (env : Env) (query relevant_content instructions : String) :
    String :=
  if ¬ env.llmAvailable then relevant_content
  else
    match env.chatProcess query relevant_content instructions with
    | some r => pyStrip r
    | none => relevant_content

/-- One entry of `processed_documents`. -/
structure PPDoc where
  document_id : String
  title : String
  relevant_content : String
  processing_applied : Bool
  deriving DecidableEq, Repr

/-- The result dictionary of `PostProcessorAgent.process_documents`;
`direct_answer` is an `Option` because the key exists only on the success
path. -/
structure PPResult where
  query : String
  direct_answer : Option String
  processed_documents : List PPDoc
  total_processed : Nat
  errors : List String
  deriving DecidableEq, Repr

/-- `PostProcessorAgent.process_documents`. -/
def process_documents (env : Env) (query : String) (document_ids : List String)
    (st : St) : PPResult :=
  if pyStrip query = "" then
    { query := query, direct_answer := none, processed_documents := [],
      total_processed := 0, errors := ["Query cannot be empty"] }
  else if document_ids = [] then
    { query := query, direct_answer := none, processed_documents := [],
      total_processed := 0, errors := ["No document IDs provided"] }
  else
    let documents := st.docs.filter (fun d => document_ids.contains d.id)
    if documents = [] then
      { query := pyStrip query, direct_answer := none, processed_documents := [],
        total_processed := 0, errors := ["No documents found for the provided IDs"] }
    else
      let extracted_contents := extract_document_contents env st documents
      let direct_answer := generate_direct_answer env query extracted_contents
      let relevant_content := find_relevant_content env query extracted_contents
      let decision := decide_additional_processing env query relevant_content
      let final_result :=
        if decision.needs_processing then
          perform_additional_processing env query relevant_content (pyStr decision.instructions)
        else relevant_content
      { query := pyStrip query, direct_answer := some direct_answer,
        processed_documents := documents.map (fun doc =>
          { document_id := doc.id, title := doc.title, relevant_content := final_result,
            processing_applied := decision.needs_processing }),
        total_processed := documents.length, errors := [] }

/-! ## Shared concrete environment for witnesses -/

/-- A concrete environment: model unavailable, UTF-8 decoding of byte values
as code points, no extraction libraries.  Witness environments override
individual capabilities. -/
def baseEnv : Env :=
  { hash := fun b => "h" ++ toString b,
    freshId := "id-1", now := 0, llmAvailable := false,
    chatSummarize := fun _ => none, chatTags := fun _ => none,
    visionChat := fun _ _ => none,
    chatSelectTags := fun _ _ => none,
    chatAnswer := fun _ _ => none, chatRelevant := fun _ _ => none,
    chatDecide := fun _ _ => none, chatProcess := fun _ _ _ => none,
    jloads := fun _ => none,
    decodeBytes := fun enc b => if enc = "utf-8" then some (String.mk (b.map Char.ofNat)) else none,
    decodeLossy := fun b => String.mk (b.map Char.ofNat),
    tesseractAvailable := false, pymupdfAvailable := false,
    pdfminerAvailable := false, docxAvailable := false,
    pdfPages := fun _ => none, pdfminerText := fun _ => none,
    renderPage := fun _ _ => [], ocrImage := fun _ => "",
    ocrIngest := fun _ => none, ocrRaw := fun _ => none,
    docxParse := fun _ => none }

/-! ## C6 — validation is rejecting and atomic -/

/-- **C6.** For every call to `ingest_file` with empty bytes, empty filename,
empty MIME type, or size strictly greater than `MAX_FILE_SIZE` (100 MB), the
call returns no `Document` together with a non-empty error list, and the
state — blob store and catalog alike — is unchanged. -/
theorem ingest_file_rejects_invalid (env : Env) (b : List Nat) (f m : String)
    (t : Option String) (st : St)
    (h : b = [] ∨ f = "" ∨ m = "" ∨ MAX_FILE_SIZE < b.length) :
    (ingest_file env b f m st t).1 = none ∧
    (ingest_file env b f m st t).2.1 ≠ [] ∧
    (ingest_file env b f m st t).2.2 = st := by
  unfold ingest_file
  rcases h with h | h | h | h <;> split_ifs <;> simp_all [List.isEmpty_iff]

/-- Witness for C6 at a concrete invalid input (empty bytes). -/
theorem ingest_file_rejects_invalid_witness :
    (ingest_file baseEnv [] "x.txt" "text/plain" ⟨[], [], []⟩ none).1 = none ∧
    (ingest_file baseEnv [] "x.txt" "text/plain" ⟨[], [], []⟩ none).2.1 ≠ [] ∧
    (ingest_file baseEnv [] "x.txt" "text/plain" ⟨[], [], []⟩ none).2.2 = ⟨[], [], []⟩ :=
  ingest_file_rejects_invalid baseEnv [] "x.txt" "text/plain" none ⟨[], [], []⟩ (Or.inl rfl)

/-! ## C8 — generate_tags returns at most 7 tags -/

/-- **C8.** For every environment (hence every model response, through the
strict-JSON, bracket-extraction and delimiter-split parse paths, and the
keyword-table fallback when the call raises) and every input text,
`generate_tags` returns at most 7 tags. -/
theorem generate_tags_length_le_seven (env : Env) (text : String) :
    (generate_tags env text).length ≤ 7 := by
  unfold generate_tags
  split
  · simp
  · split
    · unfold keywordFallbackTags
      dsimp only
      simp only [List.length_take]
      omega
    · dsimp only
      split
      · simp only [List.length_take]
        omega
      · split
        · split
          · simp only [List.length_take]
            omega
          · unfold delimiterFallbackTags
            dsimp only
            simp only [List.length_take]
            omega
        · unfold delimiterFallbackTags
          dsimp only
          simp only [List.length_take]
          omega

/-! ## C10 — out-of-range limits are replaced by 10, not clamped -/

/-- **C10.** A call to `search_documents` with `limit ≤ 0` or `limit > 1000`
behaves exactly as if `limit` were 10 (the default replaces the out-of-range
value — it is not clamped to the nearest bound), and an in-range limit is
used unchanged. -/
theorem search_documents_limit_replaced (env : Env) (q : String) (st : St) (limit : Int) :
    ((limit ≤ 0 ∨ 1000 < limit) →
      search_documents env q st limit = search_documents env q st 10 ∧
      normalize_limit limit = 10) ∧
    (0 < limit → limit ≤ 1000 → normalize_limit limit = limit) := by
  constructor
  · intro h
    have h10 : normalize_limit limit = normalize_limit 10 := by
      unfold normalize_limit
      rw [if_pos h, if_neg (by omega)]
    constructor
    · unfold search_documents
      rw [h10]
    · unfold normalize_limit at h10 ⊢
      rw [if_pos h]
  · intro h1 h2
    unfold normalize_limit
    rw [if_neg (by omega)]

/-- Witness for C10: `limit = 2000` (out of range, replaced by 10 — not
clamped to 1000) and `limit = 7` (in range, kept). -/
theorem search_documents_limit_replaced_witness :
    (search_documents baseEnv "q" ⟨[], [], []⟩ 2000 = search_documents baseEnv "q" ⟨[], [], []⟩ 10 ∧
      normalize_limit 2000 = 10) ∧
    normalize_limit 7 = 7 :=
  ⟨(search_documents_limit_replaced baseEnv "q" ⟨[], [], []⟩ 2000).1 (by omega),
   (search_documents_limit_replaced baseEnv "q" ⟨[], [], []⟩ 7).2 (by omega) (by omega)⟩

/-! ## C9 — search_documents result shape -/

/-- **C9.** `search_documents` always produces a result record (it never
raises), but the shape is inconsistent at one edge: an empty or
whitespace-only query yields a `file_paths` key and no `document_ids` key,
while every non-empty query yields `document_ids` and no `file_paths`
(`query`, `documents` and `errors` are present in both shapes). -/
theorem search_documents_result_shape (env : Env) (q : String) (st : St) (limit : Int) :
    (pyStrip q = "" →
      (search_documents env q st limit).file_paths = some [] ∧
      (search_documents env q st limit).document_ids = none ∧
      (search_documents env q st limit).errors = ["Query cannot be empty"]) ∧
    (pyStrip q ≠ "" →
      (search_documents env q st limit).file_paths = none ∧
      (search_documents env q st limit).document_ids ≠ none ∧
      (search_documents env q st limit).errors = []) := by
  constructor
  · intro h
    unfold search_documents
    rw [if_pos h]
    exact ⟨rfl, rfl, rfl⟩
  · intro h
    unfold search_documents
    rw [if_neg h]
    exact ⟨rfl, by simp, rfl⟩

/-- Witness for C9: a whitespace-only query and a non-empty query. -/
theorem search_documents_result_shape_witness :
    ((search_documents baseEnv " " ⟨[], [], []⟩ 10).file_paths = some [] ∧
      (search_documents baseEnv " " ⟨[], [], []⟩ 10).document_ids = none ∧
      (search_documents baseEnv " " ⟨[], [], []⟩ 10).errors = ["Query cannot be empty"]) ∧
    ((search_documents baseEnv "hello" ⟨[], [], []⟩ 10).file_paths = none ∧
      (search_documents baseEnv "hello" ⟨[], [], []⟩ 10).document_ids ≠ none ∧
      (search_documents baseEnv "hello" ⟨[], [], []⟩ 10).errors = []) :=
  ⟨(search_documents_result_shape baseEnv " " ⟨[], [], []⟩ 10).1 (by decide),
   (search_documents_result_shape baseEnv "hello" ⟨[], [], []⟩ 10).2 (by decide)⟩

/-! ## C2 — retrieval never uses a model-invented tag -/

/-- Membership of a fold that appends per-element blocks. -/
theorem mem_foldl_append {α β : Type} (f : β → List α) (l : List β) (acc : List α) (d : α) :
    d ∈ l.foldl (fun acc x => acc ++ f x) acc ↔ d ∈ acc ∨ ∃ x ∈ l, d ∈ f x := by
  induction l generalizing acc with
  | nil => simp
  | cons y ys ih =>
    simp only [List.foldl_cons, ih, List.mem_append, List.mem_cons]
    constructor
    · rintro (⟨h | h⟩ | ⟨x, hx, hd⟩)
      · exact Or.inl h
      · exact Or.inr ⟨y, Or.inl rfl, h⟩
      · exact Or.inr ⟨x, Or.inr hx, hd⟩
    · rintro (h | ⟨x, (rfl | hx), hd⟩)
      · exact Or.inl (Or.inl h)
      · exact Or.inl (Or.inr hd)
      · exact Or.inr ⟨x, hx, hd⟩

/-- The dedup fold of `dedupDocsById` only keeps documents of its input. -/
theorem mem_dedup_fold (d : Doc) : ∀ (l : List Doc) (acc : List Doc × List String),
    d ∈ (l.foldl (fun acc x =>
        if acc.2.contains x.id then acc else (acc.1 ++ [x], acc.2 ++ [x.id])) acc).1 →
    d ∈ acc.1 ∨ d ∈ l := by
  intro l
  induction l with
  | nil => intro acc h; exact Or.inl h
  | cons y ys ih =>
    intro acc h
    simp only [List.foldl_cons] at h
    by_cases hc : acc.2.contains y.id
    · rw [if_pos hc] at h
      rcases ih _ h with h2 | h2
      · exact Or.inl h2
      · exact Or.inr (List.mem_cons_of_mem _ h2)
    · rw [if_neg hc] at h
      rcases ih _ h with h2 | h2
      · rcases List.mem_append.mp h2 with h3 | h3
        · exact Or.inl h3
        · simp only [List.mem_singleton] at h3
          exact Or.inr (h3 ▸ List.mem_cons_self _ _)
      · exact Or.inr (List.mem_cons_of_mem _ h2)

/-- `dedupDocsById` only keeps documents of its input. -/
theorem mem_dedupDocsById (docs : List Doc) (d : Doc) (h : d ∈ dedupDocsById docs) :
    d ∈ docs := by
  unfold dedupDocsById at h
  rcases mem_dedup_fold d docs ([], []) h with h' | h'
  · simp at h'
  · exact h'

/-- **C2.** When the model is available: every tag produced by
`_generate_relevant_tags` — whatever the model response — is a member of the
vocabulary passed in; every document returned by the tag-driven lookup
matches the fixed `LIKE`-containment filter for one of the given tags; and
every document returned by the direct text search matches the fixed
substring filter on title/summary/tags.  Document access therefore never
goes through a model-authored query. -/
theorem retrieval_tags_subset_vocabulary (env : Env) (q q' : String)
    (available_tags tags : List String) (st : St) (limit lim skip lim' : Nat)
    (hav : env.llmAvailable = true) :
    (generate_relevant_tags env q available_tags st limit).all
      (fun t => decide (t ∈ available_tags)) = true ∧
    (search_documents_with_generated_tags st tags lim).all
      (fun d => tags.any (fun t => docTagsContains d t)) = true ∧
    (document_search st q' skip lim').all (fun d => searchMatches q' d) = true := by
  refine ⟨?_, ?_, ?_⟩
  · unfold generate_relevant_tags
    rw [if_neg (by simp [hav])]
    simp only [List.all_eq_true, decide_eq_true_eq]
    intro t ht
    split at ht
    · exact (List.mem_filter.mp ht).1
    · split at ht
      · simp at ht
      · split at ht
        · simp only [List.mem_filterMap] at ht
          obtain ⟨j, hjmem, hj⟩ := ht
          rcases j with _ | b | n | s | xs | fs
          · exact Option.noConfusion hj
          · exact Option.noConfusion hj
          · exact Option.noConfusion hj
          · dsimp only at hj
            split_ifs at hj with hs
            cases hj
            exact hs
          · exact Option.noConfusion hj
          · exact Option.noConfusion hj
        · have := (List.mem_filter.mp ht).2
          simpa using this
  · unfold search_documents_with_generated_tags
    simp only [List.all_eq_true]
    intro d hd
    split at hd
    · simp at hd
    · have hd' := mem_dedupDocsById _ _ (List.mem_of_mem_take hd)
      rw [mem_foldl_append] at hd'
      rcases hd' with h | ⟨t, ht, hdt⟩
      · simp at h
      · have := (List.mem_filter.mp (List.mem_of_mem_take hdt)).2
        simp only [List.any_eq_true]
        exact ⟨t, ht, this⟩
  · unfold document_search
    simp only [List.all_eq_true]
    intro d hd
    exact (List.mem_filter.mp (List.mem_of_mem_drop (List.mem_of_mem_take hd))).2

/-- A model that returns the tag array `["report", "hacker"]` where only
`"report"` is in the vocabulary. -/
def c2Env : Env :=
  { baseEnv with
    llmAvailable := true,
    chatSelectTags := fun _ _ => some "[\"report\", \"hacker\"]",
    jloads := fun s =>
      if s = "[\"report\", \"hacker\"]" then
        some (JVal.arr [JVal.str "report", JVal.str "hacker"])
      else none }

/-- Witness for C2: the invented tag `"hacker"` is filtered out and the
fixed lookups hold at a concrete instance. -/
theorem retrieval_tags_subset_vocabulary_witness :
    (generate_relevant_tags c2Env "find my report" ["report"] ⟨[], [], []⟩ 10).all
      (fun t => decide (t ∈ (["report"] : List String))) = true ∧
    (search_documents_with_generated_tags ⟨[], [], []⟩ ["report"] 10).all
      (fun d => (["report"] : List String).any (fun t => docTagsContains d t)) = true ∧
    (document_search ⟨[], [], []⟩ "report" 0 10).all (fun d => searchMatches "report" d) = true :=
  retrieval_tags_subset_vocabulary c2Env "find my report" "report" ["report"] ["report"]
    ⟨[], [], []⟩ 10 10 0 10 rfl

/-! ## C3 — PDF extraction and the OCR fallback -/

/-- A string of whitespace characters strips to empty. -/
theorem pyStrip_eq_empty_of_all_ws (s : String) (h : ∀ c ∈ s.data, c.isWhitespace) :
    pyStrip s = "" := by
  unfold pyStrip
  have h1 : s.data.dropWhile Char.isWhitespace = [] :=
    List.dropWhile_eq_nil_iff.mpr h
  rw [h1]
  rfl

/-- A string that strips to empty is all whitespace. -/
theorem all_ws_of_pyStrip_eq_empty (s : String) (h : pyStrip s = "") :
    ∀ c ∈ s.data, c.isWhitespace := by
  unfold pyStrip at h
  have h' := congrArg String.data h
  simp only [List.reverse_eq_nil_iff, List.dropWhile_eq_nil_iff] at h'
  replace h := h'
  intro c hc
  have hsplit := List.takeWhile_append_dropWhile (p := Char.isWhitespace) (l := s.data)
  rw [← hsplit] at hc
  rcases List.mem_append.mp hc with h2 | h2
  · exact List.mem_takeWhile_imp h2
  · exact h (c) (by simpa using List.mem_reverse.mpr h2)

/-- Appending whitespace-only strings preserves whitespace-only content. -/
theorem foldl_append_all_ws (pages : List String) :
    ∀ (acc : String), (∀ c ∈ acc.data, c.isWhitespace) →
    (∀ p ∈ pages, ∀ c ∈ p.data, c.isWhitespace) →
    ∀ c ∈ (pages.foldl (fun a p => a ++ p) acc).data, c.isWhitespace := by
  induction pages with
  | nil => intro acc hacc _ c hc; exact hacc c hc
  | cons p ps ih =>
    intro acc hacc h c hc
    refine ih (acc ++ p) ?_ (fun q hq => h q (List.mem_cons_of_mem _ hq)) c hc
    intro c' hc'
    rw [String.data_append] at hc'
    rcases List.mem_append.mp hc' with h2 | h2
    · exact hacc c' h2
    · exact h p (List.mem_cons_self _ _) c' h2

/-- The `TextExtractor` page loop produces nothing from blank pages. -/
theorem txPageText_blank : ∀ (i : Nat) (pages : List String) (acc : String),
    (∀ p ∈ pages, pyStrip p = "") → txPageText i pages acc = acc := by
  intro i pages
  induction pages generalizing i with
  | nil => intro acc _; rfl
  | cons p ps ih =>
    intro acc h
    unfold txPageText
    rw [if_neg (by simp [h p (List.mem_cons_self _ _)])]
    exact ih _ _ (fun q hq => h q (List.mem_cons_of_mem _ hq))

/-- An environment where the PDF has one page with an empty text layer but
OCR recognises `"hello"` on the rendered page. -/
def c3Env : Env :=
  { baseEnv with
    pymupdfAvailable := true,
    tesseractAvailable := true,
    pdfPages := fun _ => some [""],
    renderPage := fun _ _ => [7],
    ocrImage := fun img => if img = [7] then "hello" else "" }

/-- **C3, counterexample.** A PDF whose text layer is empty and whose
rendered page OCRs to `"hello"`: `IngestAgent._extract_from_pdf` (the cited
code) still returns the failure outcome — it performs no OCR pass — even
though the per-page OCR pass (as implemented in
`TextExtractor._extract_from_pdf`) succeeds. -/
theorem ingest_pdf_no_ocr_counterexample :
    ingest_extract_from_pdf c3Env [1, 2, 3] = none ∧
    c3Env.ocrImage (c3Env.renderPage [1, 2, 3] 0) = "hello" ∧
    tx_extract_from_pdf c3Env [1, 2, 3] = some ("Page 1:\nhello") := by
  refine ⟨by rfl, by rfl, by rfl⟩

/-- **C3, amended.** When the direct text layer yields only
empty/whitespace text (every PyMuPDF page strips to empty; any pdfminer
output strips to empty): `IngestAgent._extract_from_pdf` — the extraction
used by `ingest_file` — returns the failure outcome without any OCR pass,
while `TextExtractor._extract_from_pdf` (`app/files/text_extractor.py`)
falls back to the per-page render+OCR pass, its result being exactly that
of `_extract_from_pdf_ocr_fallback` (so it fails only when the OCR pass
also yields nothing). -/
theorem pdf_ocr_fallback_only_in_text_extractor (env : Env) (b : List Nat)
    (hpm : ∀ pages, env.pdfPages b = some pages → ∀ p ∈ pages, pyStrip p = "")
    (hpd : ∀ txt, env.pdfminerText b = some txt → pyStrip txt = "") :
    ingest_extract_from_pdf env b = none ∧
    tx_extract_from_pdf env b = tx_extract_from_pdf_ocr_fallback env b := by
  have hPymupdfBlank : ∀ pages, env.pdfPages b = some pages →
      pyStrip (pages.foldl (fun a p => a ++ p) "") = "" := by
    intro pages hp
    refine pyStrip_eq_empty_of_all_ws _ ?_
    refine foldl_append_all_ws pages "" (by simp) ?_
    intro p hmem
    exact all_ws_of_pyStrip_eq_empty p (hpm pages hp p hmem)
  constructor
  · unfold ingest_extract_from_pdf
    have hvia : (if env.pymupdfAvailable then
        match env.pdfPages b with
        | some pages =>
          let text := pages.foldl (fun acc p => acc ++ p) ""
          if pyStrip text ≠ "" then some (pyStrip text) else none
        | none => none
      else none) = none := by
      split
      · cases hp : env.pdfPages b with
        | none => rfl
        | some pages =>
          have := hPymupdfBlank pages hp
          simp [this]
      · rfl
    rw [hvia]
    split
    · cases hp2 : env.pdfminerText b with
      | none => rfl
      | some txt =>
        have := hpd txt hp2
        simp [this]
    · rfl
  · unfold tx_extract_from_pdf
    have hvia : (if env.pymupdfAvailable then
        match env.pdfPages b with
        | some pages =>
          let text := txPageText 0 pages ""
          if pyStrip text ≠ "" then some (pyStrip text) else none
        | none => none
      else none) = none := by
      split
      · cases hp : env.pdfPages b with
        | none => rfl
        | some pages =>
          have := txPageText_blank 0 pages "" (hpm pages hp)
          simp [this]
          rfl
      · rfl
    rw [hvia]
    have hvia2 : (if env.pdfminerAvailable then
        match env.pdfminerText b with
        | some text => if pyStrip text ≠ "" then some (pyStrip text) else none
        | none => none
      else none) = none := by
      split
      · cases hp2 : env.pdfminerText b with
        | none => rfl
        | some txt =>
          have := hpd txt hp2
          simp [this]
      · rfl
    rw [hvia2]

/-- Witness for the amended C3 at the concrete blank-text-layer PDF. -/
theorem pdf_ocr_fallback_only_in_text_extractor_witness :
    ingest_extract_from_pdf c3Env [1, 2, 3] = none ∧
    tx_extract_from_pdf c3Env [1, 2, 3] = tx_extract_from_pdf_ocr_fallback c3Env [1, 2, 3] :=
  pdf_ocr_fallback_only_in_text_extractor c3Env [1, 2, 3]
    (fun pages hp => by
      injection hp with hp'
      subst hp'
      intro p hmem
      simp only [List.mem_singleton] at hmem
      subst hmem
      rfl)
    (fun txt h => Option.noConfusion h)

/-! ## C7 — answer-pipeline safe defaults -/

/-- Whether a raw decision response passes the strict parse of
`_decide_additional_processing`: it must decode to a JSON object carrying
both a `needs_processing` and an `instructions` field. -/
def decideParseOk (env : Env) (raw : String) : Bool :=
  match env.jloads (pyStrip raw) with
  | some (JVal.obj fields) =>
    (jObjFind fields "needs_processing").isSome && (jObjFind fields "instructions").isSome
  | _ => false

/-- **C7.** Safe defaults in the answer pipeline: (a) every decision-step
model response that fails strict JSON parsing, is not a JSON object, or
lacks the `needs_processing` or `instructions` field is replaced by
`needs_processing = false` with null instructions; (b) with a model whose
calls all raise, `process_documents` still returns a result record — the
generic failure answer `"Error generating answer"`, per-document content
`"Error processing content with LLM"`, no processing applied, and no
propagated exception. -/
theorem postprocessor_safe_defaults (env env2 : Env) (q rc q2 raw : String)
    (ids : List String) (st : St)
    (hav : env.llmAvailable = true)
    (hresp : env.chatDecide q rc = some raw)
    (hbad : decideParseOk env raw = false)
    (hav2 : env2.llmAvailable = true)
    (hAns : ∀ a b, env2.chatAnswer a b = none)
    (hRel : ∀ a b, env2.chatRelevant a b = none)
    (hDec : ∀ a b, env2.chatDecide a b = none)
    (hq2 : pyStrip q2 ≠ "") (hids : ids ≠ [])
    (hdocs : st.docs.filter (fun d => ids.contains d.id) ≠ []) :
    ((decide_additional_processing env q rc).needs_processing = false ∧
      (decide_additional_processing env q rc).instructions.isNull = true) ∧
    ((process_documents env2 q2 ids st).direct_answer = some "Error generating answer" ∧
      (process_documents env2 q2 ids st).errors = [] ∧
      (process_documents env2 q2 ids st).processed_documents.all
        (fun pd => pd.relevant_content = "Error processing content with LLM" ∧
          pd.processing_applied = false) = true) := by
  constructor
  · unfold decide_additional_processing
    rw [if_neg (by simp [hav]), hresp]
    dsimp only
    unfold decideParseOk at hbad
    cases hj : env.jloads (pyStrip raw) with
    | none => exact ⟨rfl, rfl⟩
    | some v =>
      cases v with
      | obj fields =>
        dsimp only
        cases hnp : jObjFind fields "needs_processing" with
        | none => exact ⟨rfl, rfl⟩
        | some np =>
          cases hin : jObjFind fields "instructions" with
          | none => exact ⟨rfl, rfl⟩
          | some instr =>
            rw [hj] at hbad
            dsimp only at hbad
            rw [hnp, hin] at hbad
            simp at hbad
      | null => exact ⟨rfl, rfl⟩
      | bool b => exact ⟨rfl, rfl⟩
      | num n => exact ⟨rfl, rfl⟩
      | str s => exact ⟨rfl, rfl⟩
      | arr xs => exact ⟨rfl, rfl⟩
  · unfold process_documents
    rw [if_neg (by simpa using hq2), if_neg (by simpa using hids),
      if_neg (by simpa using hdocs)]
    have hda : generate_direct_answer env2 q2
        (extract_document_contents env2 st (st.docs.filter (fun d => ids.contains d.id))) =
        "Error generating answer" := by
      unfold generate_direct_answer
      rw [if_neg (by simp [hav2]), hAns]
    have hrc : find_relevant_content env2 q2
        (extract_document_contents env2 st (st.docs.filter (fun d => ids.contains d.id))) =
        "Error processing content with LLM" := by
      unfold find_relevant_content
      rw [if_neg (by simp [hav2]), hRel]
    have hdc : ∀ r, (decide_additional_processing env2 q2 r).needs_processing = false := by
      intro r
      unfold decide_additional_processing
      rw [if_neg (by simp [hav2]), hDec]
    refine ⟨?_, ?_, ?_⟩
    · dsimp only
      rw [hda]
    · rfl
    · dsimp only
      simp only [List.all_eq_true, decide_eq_true_eq]
      intro pd hpd
      simp only [List.mem_map] at hpd
      obtain ⟨doc, hdoc, rfl⟩ := hpd
      refine ⟨?_, ?_⟩
      · dsimp only
        simp only [hdc, Bool.false_eq_true, if_false]
        exact hrc
      · dsimp only
        exact hdc _

/-- A model that always raises on every chat call. -/
def c7Env : Env := { baseEnv with llmAvailable := true }

/-- A one-document catalog used by the C7 witness. -/
def c7St : St :=
  { docs := [{ id := "d1", content_hash := "h", title := "t", mime_type := "text/plain",
               size_bytes := 1, storage_path := "p", summary := none, tags := [],
               created_at := 0, imported_at := 0 }],
    tags := [], blobs := [] }

/-- Witness for C7: a malformed decision response (`"not json"`, which the
parser rejects) and an always-raising model over a one-document catalog. -/
theorem postprocessor_safe_defaults_witness :
    ((decide_additional_processing
        { c7Env with chatDecide := fun _ _ => some "not json" } "q" "rc").needs_processing = false ∧
      (decide_additional_processing
        { c7Env with chatDecide := fun _ _ => some "not json" } "q" "rc").instructions.isNull = true) ∧
    ((process_documents c7Env "what" ["d1"] c7St).direct_answer = some "Error generating answer" ∧
      (process_documents c7Env "what" ["d1"] c7St).errors = [] ∧
      (process_documents c7Env "what" ["d1"] c7St).processed_documents.all
        (fun pd => pd.relevant_content = "Error processing content with LLM" ∧
          pd.processing_applied = false) = true) :=
  postprocessor_safe_defaults { c7Env with chatDecide := fun _ _ => some "not json" } c7Env
    "q" "rc" "what" "not json" ["d1"] c7St rfl rfl rfl rfl
    (fun _ _ => rfl) (fun _ _ => rfl) (fun _ _ => rfl)
    (by decide) (by decide) (by decide)

/-! ## C1 — ingestion is deduplicating and idempotent on content -/

/-- `tag_get_or_create` touches only the tags table. -/
theorem tag_get_or_create_docs_blobs (st : St) (t : String) :
    (tag_get_or_create st t).docs = st.docs ∧ (tag_get_or_create st t).blobs = st.blobs := by
  unfold tag_get_or_create
  cases tag_get_by_name st t <;> exact ⟨rfl, rfl⟩

/-- Folding `tag_get_or_create` touches only the tags table. -/
theorem foldl_tag_get_or_create_docs_blobs (l : List String) :
    ∀ st : St, (l.foldl tag_get_or_create st).docs = st.docs ∧
      (l.foldl tag_get_or_create st).blobs = st.blobs := by
  induction l with
  | nil => intro st; exact ⟨rfl, rfl⟩
  | cons t ts ih =>
    intro st
    rw [List.foldl_cons]
    rcases ih (tag_get_or_create st t) with ⟨h1, h2⟩
    rcases tag_get_or_create_docs_blobs st t with ⟨h3, h4⟩
    exact ⟨h1.trans h3, h2.trans h4⟩

/-- Any document returned by a successful `ingest_file` is found again by
`get_by_hash` of the same content hash in the resulting state. -/
theorem get_by_hash_after_ingest (env : Env) (b : List Nat) (f m : String)
    (t : Option String) (st st₁ : St) (d : Doc) (errs : List String)
    (h : ingest_file env b f m st t = (some d, errs, st₁)) :
    get_by_hash st₁ (env.hash b) = some d := by
  unfold ingest_file at h
  split_ifs at h with he hfb hmb
  · simp at h
  · simp at h
  · simp at h
  · dsimp only at h
    split_ifs at h with hsb
    · simp at h
    cases hge : get_by_hash st (env.hash b) with
    | some e =>
      rw [hge] at h
      simp only [Prod.mk.injEq, Option.some.injEq] at h
      obtain ⟨hde, -, hst⟩ := h
      rw [← hst, hge, hde]
    | none =>
      rw [hge] at h
      unfold ingest_create at h
      simp only [Prod.mk.injEq, Option.some.injEq] at h
      obtain ⟨hd, _, hst⟩ := h
      subst hd
      subst hst
      unfold get_by_hash
      rcases foldl_tag_get_or_create_docs_blobs
        (if env.llmAvailable then
            generate_tags env
              (if (ingest_extract_text env b m f).getD "" = "" ∧ pyStartsWith m "image/" then
                imageTagContext f m b.length
              else (ingest_extract_text env b m f).getD "")
          else [])
        _ with ⟨hdocs, _⟩
      rw [hdocs]
      unfold get_by_hash at hge
      rw [List.find?_append]
      simp only [hge, Option.none_or]
      simp

/-- **C1.** Ingestion is deduplicating and idempotent on content: whenever a
call to `ingest_file` returned a `Document`, a second call with
byte-identical data — under any filename, MIME type and title — returns that
same `Document` (same id) unchanged with exactly the duplicate warning
appended (not a failure), and leaves the state untouched: no second blob is
written and the document count is unchanged. -/
theorem ingest_file_dedup_idempotent (env : Env) (b : List Nat)
    (f m f2 m2 : String) (t t2 : Option String) (st st₁ : St) (d : Doc)
    (errs : List String)
    (h1 : ingest_file env b f m st t = (some d, errs, st₁))
    (hf2 : f2 ≠ "") (hm2 : m2 ≠ "") :
    ingest_file env b f2 m2 st₁ t2 = (some d, [dedupWarning d.title], st₁) := by
  have hfind := get_by_hash_after_ingest env b f m t st st₁ d errs h1
  unfold ingest_file at h1
  split_ifs at h1 with he hfb hmb
  · simp at h1
  · simp at h1
  · simp at h1
  · dsimp only at h1
    split_ifs at h1 with hsb
    · simp at h1
    unfold ingest_file
    rw [if_neg he, if_neg hf2, if_neg hm2, if_neg hsb]
    dsimp only
    rw [hfind]

/-- The document created by the C1 witness's first ingestion. -/
def c1Doc : Doc :=
  { id := "id-1", content_hash := "h[104, 105]", title := "a",
    mime_type := "text/plain", size_bytes := 2,
    storage_path := "data/blobs/h[104, 105].txt", summary := none, tags := [],
    created_at := 0, imported_at := 0 }

/-- The state after the C1 witness's first ingestion. -/
def c1St1 : St :=
  { docs := [c1Doc], tags := [],
    blobs := [("data/blobs/h[104, 105].txt", [104, 105])] }

/-- The warnings of the C1 witness's first ingestion (model unavailable). -/
def c1Errs : List String :=
  ["OpenAI API key not configured - summary generation skipped",
   "OpenAI API key not configured - tag generation skipped"]

/-- Witness for C1: ingest two bytes, then ingest the identical bytes under
a different filename and MIME type — the same document comes back, with the
duplicate warning, and the state is unchanged. -/
theorem ingest_file_dedup_idempotent_witness :
    ingest_file baseEnv [104, 105] "b.pdf" "application/pdf" c1St1 none =
      (some c1Doc, [dedupWarning c1Doc.title], c1St1) :=
  ingest_file_dedup_idempotent baseEnv [104, 105] "a.txt" "text/plain" "b.pdf"
    "application/pdf" none none ⟨[], [], []⟩ c1St1 c1Doc c1Errs
    (by decide) (by decide) (by decide)

/-! ## C4 / C5 — tag membership and tag pruning on a concrete run -/

/-- A model that is available, summarises to `"a summary"` and answers the
tag request with the JSON array `["report"]`. -/
def c4Env : Env :=
  { baseEnv with
    llmAvailable := true,
    chatSummarize := fun _ => some "a summary",
    chatTags := fun _ => some "[\"report\"]",
    jloads := fun s =>
      if s = "[\"report\"]" then some (JVal.arr [JVal.str "report"]) else none }

/-- **C4.** Evaluating `ingest_file` at a concrete input whose tag
generation yields `["report"]`: the tag row is got-or-created and the
document stores the tag list, but the new document's id (`"id-1"`) is *not*
appended to the tag's document-id set — `ingest_file` never calls
`TagCRUD.add_document_to_tag`, so the tag's `document_ids` list stays
empty, contradicting both the spec's step 7 and the cleanup performed by
`DocumentCRUD.delete`. -/
theorem ingest_tag_membership_not_appended :
    ((ingest_file c4Env [104, 105] "a.txt" "text/plain" ⟨[], [], []⟩ none).2.2).tags =
      [{ name := "report", document_ids := [] }] ∧
    (Option.map (fun d => d.tags)
      (ingest_file c4Env [104, 105] "a.txt" "text/plain" ⟨[], [], []⟩ none).1) =
      some ["report"] ∧
    (Option.map (fun d => d.id)
      (ingest_file c4Env [104, 105] "a.txt" "text/plain" ⟨[], [], []⟩ none).1) =
      some "id-1" := by
  refine ⟨by decide, by decide, by decide⟩

/-- The one-document state produced by the C4/C5 concrete ingestion. -/
def c5St : St :=
  (ingest_file c4Env [104, 105] "a.txt" "text/plain" ⟨[], [], []⟩ none).2.2

/-- **C5.** Evaluating `DocumentCRUD.delete` on the state just ingested:
the only document (tagged `"report"`) is deleted, yet the `"report"` tag
row remains in the vocabulary with an empty document-id set — because
ingestion never appended the id, `remove_document_from_tag` finds nothing
to remove and never reaches its pruning branch, so a tag with an empty
document set survives the delete. -/
theorem delete_leaves_empty_tag_unpruned :
    (document_delete c5St "id-1").1 = true ∧
    (document_delete c5St "id-1").2.docs = [] ∧
    (document_delete c5St "id-1").2.tags = [{ name := "report", document_ids := [] }] := by
  refine ⟨by decide, by decide, by decide⟩
